import Mathlib

/-!
Shallow embedding of `src/streamlit_app.py` (protein structure viewer:
AlphaFold DB lookup + ESMFold fallback).

Strings are modelled as `List Char`.  HTTP transports are modelled as
scripted functions (attempt index, or URL, to response), so the retry and
fallback loops can be replayed deterministically.  Floats that can be NaN
are modelled by `PyFloat`; ordinary float arithmetic is modelled over `ℚ`.
-/

namespace EsmFold

/-- Characters matched by Python's `\s` in a unicode pattern, i.e. the
characters for which `str.isspace()` holds: `[ \t\n\r\f\v]`, `\x1c`-`\x1f`,
`\x85`, `\xa0`, ` `, ` `-` `, ` `, ` `, ` `,
` `, `　`.  Used both by the normalisation regex and by
`str.strip()`. -/
def isPyWhitespace (c : Char) : Bool :=
  c == ' ' || c == '\t' || c == '\n' || c == '\r' ||
  c == Char.ofNat 0x0b || c == Char.ofNat 0x0c ||
  (0x1c ≤ c.toNat && c.toNat ≤ 0x1f) ||
  c == Char.ofNat 0x85 || c == Char.ofNat 0xa0 || c == Char.ofNat 0x1680 ||
  (0x2000 ≤ c.toNat && c.toNat ≤ 0x200a) ||
  c == Char.ofNat 0x2028 || c == Char.ofNat 0x2029 ||
  c == Char.ofNat 0x202f || c == Char.ofNat 0x205f || c == Char.ofNat 0x3000

/-- Characters removed by the normalisation regex
`re.sub(r'[\s ​‌‍\r\n]+', '', seq)` at line 29:
Python `\s` plus the zero-width characters `​`, `‌`, `‍`
(` `, `\r`, `\n` are already in `\s`). -/
def isRegexStripped (c : Char) : Bool :=
  isPyWhitespace c || c == Char.ofNat 0x200b || c == Char.ofNat 0x200c ||
  c == Char.ofNat 0x200d

/-- Normalisation performed at lines 27-29 of the source: `seq.upper()`
followed by removal of every regex-stripped character.  Uppercasing is
modelled by `Char.toUpper`, which covers the ASCII range of `str.upper`. -/
def normalize (s : List Char) : List Char :=
  (s.map Char.toUpper).filter (fun c => !isRegexStripped c)

/-- `VALID_AA = set("ARNDCQEGHILKMFPSTWYVBZJX")`, line 24 of the source. -/
def VALID_AA : Finset Char := ("ARNDCQEGHILKMFPSTWYVBZJX".toList).toFinset

/-- Outcome of `clean_and_validate_sequence` when it raises `ValueError`.
`invalidToken` carries the 1-indexed position and the offending character,
as in the message `"Invalid token '{ch}' at position {i+1}"`. -/
inductive ValidationError where
  | empty : ValidationError
  | invalidToken (position : Nat) (char : Char) : ValidationError
  | tooLong : ValidationError
deriving DecidableEq, Repr

/-- `clean_and_validate_sequence`, lines 26-42 of the source: normalise,
raise on empty, raise on the first character outside `VALID_AA`
(`bad = [(i, ch) for i, ch in enumerate(seq) if ch not in VALID_AA]`,
then `bad[0]`), raise when the length exceeds 4000, otherwise return the
normalised sequence. -/
def clean_and_validate_sequence (s : List Char) :
    Except ValidationError (List Char) :=
  let seq := normalize s
  if seq.isEmpty then .error .empty
  else
    match (seq.enum.filter (fun p => decide (p.2 ∉ VALID_AA))).head? with
    | some (i, ch) => .error (.invalidToken (i + 1) ch)
    | none => if 4000 < seq.length then .error .tooLong else .ok seq

instance {ε α : Type} [DecidableEq ε] [DecidableEq α] :
    DecidableEq (Except ε α) := fun a b =>
  match a, b with
  | .error e, .error f =>
      if h : e = f then .isTrue (by rw [h]) else .isFalse (by simp [h])
  | .error _, .ok _ => .isFalse (by simp)
  | .ok _, .error _ => .isFalse (by simp)
  | .ok x, .ok y =>
      if h : x = y then .isTrue (by rw [h]) else .isFalse (by simp [h])

/-- One HTTP response: status code and body text. -/
structure Response where
  status : Nat
  body : List Char
deriving DecidableEq, Repr

/-- One event seen by `esmfold_with_retries` on a single attempt: either
`s.post` returns a response, or it raises `requests.RequestException`
(connection error / timeout). -/
inductive NetEvent where
  | resp (r : Response) : NetEvent
  | netErr : NetEvent
deriving DecidableEq, Repr

/-- `text.strip().startswith("HEADER")`: strip Python whitespace from both
ends and test for the `HEADER` prefix. -/
def headerOk (s : List Char) : Bool :=
  "HEADER".toList.isPrefixOf
    (((s.dropWhile isPyWhitespace).reverse.dropWhile isPyWhitespace).reverse)

/-- `resp.status_code in (429, 500, 502, 503, 504)`, line 109. -/
def isTransient (st : Nat) : Bool :=
  st == 429 || st == 500 || st == 502 || st == 503 || st == 504

/-- `requests.Response.raise_for_status` raises `HTTPError` exactly for
status codes in [400, 600). -/
def raisesForStatus (st : Nat) : Bool := 400 ≤ st && st < 600

/-- How a call of `esmfold_with_retries` terminates. -/
inductive Outcome where
  /-- `return resp.text` (status 200 and header check passed). -/
  | ok (body : List Char) : Outcome
  /-- the `HTTPError` from `resp.raise_for_status()` propagates out of the
  `except` block (only possible on the last attempt). -/
  | httpError (status : Nat) : Outcome
  /-- the `requests.RequestException` from `s.post` propagates (only
  possible on the last attempt). -/
  | netError : Outcome
  /-- the loop finished all attempts:
  `raise RuntimeError("ESMFold: exhausted retries.")`. -/
  | exhausted : Outcome
deriving DecidableEq, Repr

/-- Result of a run of the retry loop: how it ended, how many HTTP attempts
(`s.post` calls) were made, and how many backoff sleeps were performed. -/
structure RunResult where
  outcome : Outcome
  attempts : Nat
  sleeps : Nat
deriving DecidableEq, Repr

/-- The body of `for attempt in range(1, max_tries + 1)` at lines 104-123,
replayed against a scripted transport (attempt index, 1-based, to event).
`fuel` counts the iterations the `for` loop still has (invariant:
`fuel + k = maxTries + 1`); when it reaches 0 the loop is over and line 124
raises `RuntimeError`.  Branches, in source order:
- status 200 and header check → `return resp.text`;
- transient status → sleep with backoff, `continue` (even when
  `attempt == max_tries`: the sleep happens, then the loop simply ends);
- otherwise `resp.raise_for_status()`: for a status in [400, 600) this
  raises `HTTPError`, which is a subclass of `requests.RequestException`
  and is therefore caught by the `except` block: backoff sleep and retry
  when `attempt < max_tries`, re-raised when `attempt == max_tries`;
- for a status outside [400, 600) (e.g. 200 with a non-HEADER body)
  `raise_for_status` is a no-op and the loop falls through to the next
  attempt with no sleep;
- a network-level exception from `s.post` takes the same `except` path:
  backoff sleep and retry when `attempt < max_tries`, re-raised when
  `attempt == max_tries`. -/
def esmLoop (t : Nat → NetEvent) (maxTries : Nat) :
    Nat → Nat → Nat → RunResult
  | 0, k, s => ⟨.exhausted, k - 1, s⟩
  | fuel + 1, k, s =>
    match t k with
    | .netErr =>
      if k < maxTries then esmLoop t maxTries fuel (k + 1) (s + 1)
      else ⟨.netError, k, s⟩
    | .resp r =>
      if r.status == 200 && headerOk r.body then ⟨.ok r.body, k, s⟩
      else if isTransient r.status then esmLoop t maxTries fuel (k + 1) (s + 1)
      else if raisesForStatus r.status then
        if k < maxTries then esmLoop t maxTries fuel (k + 1) (s + 1)
        else ⟨.httpError r.status, k, s⟩
      else esmLoop t maxTries fuel (k + 1) s

/-- `esmfold_with_retries(sequence, max_tries, ...)`, lines 96-124, run
against a scripted transport.  The sequence payload and the delay values
(base × 2^(k-1) plus jitter) do not influence control flow, so the model
tracks only the count of sleeps. -/
def esmfold_with_retries (t : Nat → NetEvent) (maxTries : Nat) : RunResult :=
  esmLoop t maxTries maxTries 1 0

/-- `AF_BASE`, line 13 of the source. -/
def AF_BASE : List Char := "https://alphafold.ebi.ac.uk/files".toList

/-- First entry of `AF_PATTERNS` (line 15): the result of
`"AF-{uid}-F1-model_v4.pdb".format(uid=uid)`. -/
def afPattern_v4 (uid : List Char) : List Char :=
  "AF-".toList ++ uid ++ "-F1-model_v4.pdb".toList

/-- Second entry of `AF_PATTERNS` (line 16): the result of
`"AF-{uid}-F1-model_v3.pdb".format(uid=uid)`. -/
def afPattern_v3 (uid : List Char) : List Char :=
  "AF-".toList ++ uid ++ "-F1-model_v3.pdb".toList

/-- `AF_PATTERNS`, lines 14-17, as formatting functions applied to the
UniProt id. -/
def AF_PATTERNS : List (List Char → List Char) := [afPattern_v4, afPattern_v3]

/-- `url = f"{AF_BASE}/" + pattern.format(uid=uniprot_id)`, line 88. -/
def afURL (uid : List Char) (pat : List Char → List Char) : List Char :=
  AF_BASE ++ "/".toList ++ pat uid

/-- Per-attempt timeout of `sess.get(url, timeout=30)`, line 89. -/
def AF_TIMEOUT : Nat := 30

/-- How a call of `fetch_alphafold_pdb` terminates. -/
inductive LookupOutcome where
  /-- returns body text: either `return r.text` inside the loop, or the
  final `return ""` when `r.raise_for_status()` does not raise. -/
  | doc (body : List Char) : LookupOutcome
  /-- `r.raise_for_status()` raised `HTTPError` for the last response. -/
  | httpError (status : Nat) : LookupOutcome
  /-- `r` is unbound after the loop (empty `AF_PATTERNS`); unreachable for
  the source's two-element pattern list. -/
  | noCandidate : LookupOutcome
deriving DecidableEq, Repr

/-- `r.status_code == 200 and r.text.strip().startswith("HEADER")`,
line 90. -/
def acceptResp (r : Response) : Bool := r.status == 200 && headerOk r.body

/-- The `for pattern in AF_PATTERNS` loop of lines 87-94 over a URL-keyed
transport, carrying the response of the previous candidate (Python's loop
variable `r`) and the count of requests issued so far.  One `sess.get` per
candidate; accept and return on `acceptResp`; after the loop,
`r.raise_for_status()` on the last response, then `return ""`. -/
def afLoop (t : List Char → Response) (uid : List Char) :
    List (List Char → List Char) → Option Response → Nat →
    LookupOutcome × Nat
  | [], none, cnt => (.noCandidate, cnt)
  | [], some r, cnt =>
      if raisesForStatus r.status then (.httpError r.status, cnt)
      else (.doc [], cnt)
  | pat :: rest, _, cnt =>
      let r := t (afURL uid pat)
      if acceptResp r then (.doc r.body, cnt + 1)
      else afLoop t uid rest (some r) (cnt + 1)

/-- `fetch_alphafold_pdb(uniprot_id)`, lines 81-94, run against a URL-keyed
transport. -/
def fetch_alphafold_pdb (t : List Char → Response) (uid : List Char) :
    LookupOutcome × Nat :=
  afLoop t uid AF_PATTERNS none 0

/-- A Python/numpy float that is either NaN or an ordinary value
(modelled over `ℚ`). -/
inductive PyFloat where
  | nan : PyFloat
  | val (q : ℚ) : PyFloat
deriving DecidableEq, Repr

/-- `np.nan_to_num(x, nan=0.0)` applied elementwise. -/
def nanToNum : PyFloat → PyFloat
  | .nan => .val 0
  | .val q => .val q

/-- The numeric value of a `PyFloat` with NaN read as 0. -/
def qOrZero : PyFloat → ℚ
  | .nan => 0
  | .val q => q

/-- Whether a `PyFloat` is NaN. -/
def isNanPF : PyFloat → Bool
  | .nan => true
  | .val _ => false

/-- `np.mean` over a float vector: NaN when the vector is empty or contains
a NaN, otherwise the arithmetic mean. -/
def npMean (l : List PyFloat) : PyFloat :=
  if l.isEmpty || l.any isNanPF then .nan
  else .val ((l.map qOrZero).sum / l.length)

/-- `round(x, 2)` on a non-NaN value: round to 2 decimal places, modelled
as round-half-up via the floor.  (Python rounds ties to even; none of the
values in this development sit on a tie, where the two conventions
agree.) -/
def round2 (q : ℚ) : ℚ := ((q * 100 + 1 / 2).floor : ℚ) / 100

/-- `round(x, 2)` on a `PyFloat`: NaN stays NaN. -/
def roundPF : PyFloat → PyFloat
  | .nan => .nan
  | .val q => .val (round2 q)

/-- The per-atom record set produced by the structure-file parsing
collaborator (Biotite): the number of atoms and the `b_factor` annotation,
absent when `"b_factor" not in arr.get_annotation_categories()`. -/
structure AtomRecords where
  natoms : Nat
  b_factor : Option (List PyFloat)
deriving DecidableEq, Repr

/-- Lines 64-71 of `load_pdb_safe_from_text`: when the `b_factor`
annotation is absent, synthesize it as 0.0 for every atom
(`arr.add_annotation(...); arr.b_factor[:] = 0.0`); when present, run
`bf = np.asarray(arr.b_factor); arr.b_factor[:] = np.nan_to_num(bf, nan=0.0);
arr.b_factor[:] = bf`.  `np.asarray` on an ndarray returns the same buffer,
so the first slice-assignment overwrites the values `bf` denotes; the final
`arr.b_factor[:] = bf` copies the already-cleaned buffer onto itself and is
a no-op.  Net effect: `nan_to_num` elementwise. -/
def fixup_b_factor (a : AtomRecords) : List PyFloat :=
  match a.b_factor with
  | none => List.replicate a.natoms (.val 0)
  | some bf => bf.map nanToNum

/-- `load_pdb_safe_from_text`, lines 53-72, with the Biotite parse
(temp-file write + `PDBFile.read` + `get_structure`, including the
`except ValueError` re-parse at line 62) abstracted as a fallible
collaborator `p`; any exception either parse raises is an `.error`. -/
def load_pdb_safe_from_text (p : List Char → Except Unit AtomRecords)
    (pdb_text : List Char) : Except Unit (List PyFloat) :=
  (p pdb_text).map fixup_b_factor

/-- `get_mean_plddt_from_pdb_text`, lines 74-79:
`round(float(np.mean(struct.b_factor)), 2)` under a `try` that returns
`None` on any exception.  (`np.mean` of an empty vector yields NaN with a
warning, not an exception, so only the parse can fail.) -/
def get_mean_plddt_from_pdb_text (p : List Char → Except Unit AtomRecords)
    (pdb_text : List Char) : Option PyFloat :=
  match load_pdb_safe_from_text p pdb_text with
  | .error _ => none
  | .ok bfs => some (roundPF (npMean bfs))

/-- Whether an event is a response with status 200 whose body fails the
HEADER check: the case for which the retry loop has no explicit branch
(neither accepted, nor transient, nor raising in `raise_for_status`). -/
def bad200 : NetEvent → Bool
  | .resp r => r.status == 200 && !headerOk r.body
  | .netErr => false

/-- Scripted transport: every attempt answers HTTP 404. -/
def script404 : Nat → NetEvent := fun _ => .resp ⟨404, "Not Found".toList⟩

/-- Scripted transport: attempt 1 answers 503, attempt 2 answers 429, and
every later attempt answers 200 with a valid HEADER body. -/
def scriptThenOk : Nat → NetEvent := fun k =>
  if k = 1 then .resp ⟨503, "busy".toList⟩
  else if k = 2 then .resp ⟨429, "rate limited".toList⟩
  else .resp ⟨200, "HEADER predicted structure".toList⟩

/-- Scripted transport: attempts 1-5 answer 503; a hypothetical 6th attempt
would succeed, so a run that ends exhausted proves no 6th call is
consulted. -/
def scriptFiveBusy : Nat → NetEvent := fun k =>
  if k ≤ 5 then .resp ⟨503, "busy".toList⟩
  else .resp ⟨200, "HEADER late".toList⟩

/-- Scripted transport: every attempt answers 200 with a non-HEADER body. -/
def script200Bad : Nat → NetEvent := fun _ => .resp ⟨200, "not a pdb".toList⟩

/-- Scripted lookup transport: the v4 URL for P69905 answers 404 and every
other URL answers 200 with a valid HEADER body. -/
def afTransportV3Ok : List Char → Response := fun url =>
  if url = afURL "P69905".toList afPattern_v4 then ⟨404, "Not Found".toList⟩
  else ⟨200, "HEADER alphafold v3 model".toList⟩

/-- Scripted lookup transport: the v4 URL for P69905 answers 404 and every
other URL answers 200 with a body that fails the HEADER check. -/
def afTransportV3Garbage : List Char → Response := fun url =>
  if url = afURL "P69905".toList afPattern_v4 then ⟨404, "Not Found".toList⟩
  else ⟨200, "<html>error page</html>".toList⟩

/-- Scripted parse collaborator: three atoms with confidence annotation
[10.0, 20.0, 30.0]. -/
def parseTenTwentyThirty : List Char → Except Unit AtomRecords :=
  fun _ => .ok ⟨3, some [.val 10, .val 20, .val 30]⟩

/-- Scripted parse collaborator: three atoms with confidence annotation
[10.0, NaN, 30.0]. -/
def parseWithNan : List Char → Except Unit AtomRecords :=
  fun _ => .ok ⟨3, some [.val 10, .nan, .val 30]⟩

/-- Scripted parse collaborator: three atoms, confidence annotation
absent. -/
def parseNoAnnotation : List Char → Except Unit AtomRecords :=
  fun _ => .ok ⟨3, none⟩

/-- Scripted parse collaborator that always fails (unparsable document). -/
def parseAlwaysFails : List Char → Except Unit AtomRecords :=
  fun _ => .error ()

/-- The 20 standard one-letter amino-acid codes. -/
def standardAA : List Char := "ARNDCQEGHILKMFPSTWYV".toList

/-- The ambiguity codes present in `VALID_AA` beyond the standard 20. -/
def ambiguityAA : List Char := "BZJX".toList

set_option maxRecDepth 8000

theorem snd_mem_of_mem_enumFrom {l : List Char} :
    ∀ {k : Nat} {q : Nat × Char}, q ∈ List.enumFrom k l → q.2 ∈ l := by
  induction l with
  | nil => intro k q hq; simp at hq
  | cons c t ih =>
      intro k q hq
      have hstep : List.enumFrom k (c :: t) = (k, c) :: List.enumFrom (k + 1) t :=
        rfl
      rw [hstep] at hq
      rcases List.mem_cons.mp hq with rfl | h2
      · simp
      · exact List.mem_cons_of_mem _ (ih h2)

theorem filter_enumFrom_nil_of_valid (l : List Char) (k : Nat)
    (h : ∀ c ∈ l, c ∈ VALID_AA) :
    (List.enumFrom k l).filter (fun p => decide (p.2 ∉ VALID_AA)) = [] := by
  rw [List.filter_eq_nil_iff]
  intro q hq
  simp [h q.2 (snd_mem_of_mem_enumFrom hq)]

theorem filter_enumFrom_head_first_bad (l : List Char) :
    ∀ (k : Nat), (∃ c ∈ l, c ∉ VALID_AA) →
    ∃ i ch,
      ((List.enumFrom k l).filter (fun p => decide (p.2 ∉ VALID_AA))).head? =
        some (k + i, ch) ∧
      l.get? i = some ch ∧ ch ∉ VALID_AA ∧
      ∀ j c, j < i → l.get? j = some c → c ∈ VALID_AA := by
  induction l with
  | nil => intro k h; simp at h
  | cons c t ih =>
      intro k h
      by_cases hc : c ∈ VALID_AA
      · have ht : ∃ x ∈ t, x ∉ VALID_AA := by
          rcases h with ⟨x, hx, hbad⟩
          rcases List.mem_cons.mp hx with rfl | hx2
          · exact absurd hc hbad
          · exact ⟨x, hx2, hbad⟩
        rcases ih (k + 1) ht with ⟨i, ch, hhead, hget, hbad, hfirst⟩
        refine ⟨i + 1, ch, ?_, ?_, hbad, ?_⟩
        · have harith : k + 1 + i = k + (i + 1) := by omega
          rw [← harith]
          simpa [List.filter_cons, hc] using hhead
        · simpa using hget
        · intro j x hj hx
          match j, hx with
          | 0, hx0 =>
              have hcx : c = x := by simpa using hx0
              rw [← hcx]; exact hc
          | j + 1, hxs =>
              exact hfirst j x (by omega) (by simpa using hxs)
      · refine ⟨0, c, ?_, by simp, hc, ?_⟩
        · simp [List.filter_cons, hc]
        · intro j x hj hx; omega

theorem clean_and_validate_eq (s : List Char) :
    clean_and_validate_sequence s =
      (if (normalize s).isEmpty then .error .empty
       else
         match ((normalize s).enum.filter
             (fun p => decide (p.2 ∉ VALID_AA))).head? with
         | some (i, ch) => .error (.invalidToken (i + 1) ch)
         | none =>
             if 4000 < (normalize s).length then .error .tooLong
             else .ok (normalize s)) := rfl

theorem validate_eq_of_valid (l : List Char) (hn : normalize l = l)
    (hne : l ≠ []) (h : ∀ c ∈ l, c ∈ VALID_AA) :
    clean_and_validate_sequence l =
      if 4000 < l.length then .error .tooLong else .ok l := by
  have hfil : (l.enum.filter (fun p => decide (p.2 ∉ VALID_AA))) = [] :=
    filter_enumFrom_nil_of_valid l 0 h
  have hempty : l.isEmpty = false := by
    cases l with
    | nil => exact absurd rfl hne
    | cons c t => rfl
  rw [clean_and_validate_eq, hn, hempty, hfil]
  rfl

theorem filter_replicate_of_pos {α : Type} (p : α → Bool) (a : α)
    (h : p a = true) : ∀ n, (List.replicate n a).filter p = List.replicate n a
  | 0 => rfl
  | n + 1 => by
      simp [List.replicate_succ, List.filter_cons, h,
        filter_replicate_of_pos p a h n]

theorem normalize_replicate_A (n : Nat) :
    normalize (List.replicate n 'A') = List.replicate n 'A' := by
  unfold normalize
  rw [List.map_replicate]
  exact filter_replicate_of_pos _ _ (by decide) n

/-- C1: the claim says a non-transient error status (e.g. 404) makes
`esmfold_with_retries` fail fatally after that single attempt, with no
backoff and no further HTTP attempt.  The code does the opposite:
`resp.raise_for_status()` raises `requests.HTTPError`, a subclass of
`requests.RequestException`, so the `except` branch catches it, sleeps and
retries.  With every attempt answering 404 and `max_tries = 5`, the run
makes 5 HTTP attempts and 4 backoff sleeps before the `HTTPError`
propagates on the final attempt — not 1 attempt and 0 sleeps. -/
theorem C1_code_retries_on_fatal_status :
    esmfold_with_retries script404 5 = ⟨.httpError 404, 5, 4⟩ ∧
    (esmfold_with_retries script404 5).attempts ≠ 1 ∧
    (esmfold_with_retries script404 5).sleeps ≠ 0 := by
  refine ⟨by decide, by decide, by decide⟩

/-- C2: the claim says every document returned by the fetcher starts (after
stripping) with HEADER, and that an exhausted lookup fails with an error
surfacing the last status.  The code violates this: when the last candidate
answers 200 with a non-HEADER body, `r.raise_for_status()` does not raise
and `fetch_alphafold_pdb` returns `""` (the line commented `# unreachable`),
an empty document that fails the header check. -/
theorem C2_code_returns_empty_document :
    fetch_alphafold_pdb afTransportV3Garbage "P69905".toList =
      (.doc [], 2) ∧
    headerOk [] = false ∧ ([] : List Char).length = 0 := by
  refine ⟨by decide, by decide, rfl⟩

/-- C3: for the prediction path with max attempts 5, the scripted response
sequence [503, 429, 200-with-valid-header] succeeds on the 3rd attempt and
returns the 3rd response body (after two backoff sleeps); five consecutive
503 responses end in the exhausted state after exactly 5 attempts, and no
6th call is made — `scriptFiveBusy` would answer a valid 200 on a 6th
attempt, yet the run still ends exhausted with 5 attempts. -/
theorem C3_scripted_response_sequences :
    esmfold_with_retries scriptThenOk 5 =
      ⟨.ok "HEADER predicted structure".toList, 3, 2⟩ ∧
    esmfold_with_retries scriptFiveBusy 5 = ⟨.exhausted, 5, 5⟩ := by
  refine ⟨by decide, by decide⟩

/-- C5 counterexample: the claim says the allowed token set has exactly 25
characters; `VALID_AA` has 24. -/
theorem C5_counterexample : ¬ (VALID_AA.card = 25) := by decide

/-- C5 (amended): the allowed token set is a fixed, process-wide constant
set of exactly 24 one-letter codes: the 20 standard amino-acid codes plus
the 4 ambiguity codes B, Z, J, X. -/
theorem C5_token_set_has_24_codes :
    VALID_AA.card = 24 ∧
    standardAA.all (fun c => decide (c ∈ VALID_AA)) = true ∧
    ambiguityAA.all (fun c => decide (c ∈ VALID_AA)) = true ∧
    standardAA.length = 20 ∧ ambiguityAA.length = 4 := by
  refine ⟨by decide, by decide, by decide, by decide, by decide⟩

/-- C6: the database-lookup path tries its candidate URL templates in
order — the model_v4 URL first, then the model_v3 URL — issuing one request
per candidate, and accepts a response only when its status is 200 AND the
stripped body starts with HEADER (`acceptResp`).  When the v4 candidate is
accepted, exactly one request is made; when the v4 candidate is not
accepted (e.g. a 404) and the v3 candidate is, the v3 document is returned
as a success after exactly two requests, so the v4 miss is not an error. -/
theorem C6_candidates_in_order :
    (∀ (t : List Char → Response) (uid : List Char),
        acceptResp (t (afURL uid afPattern_v4)) = true →
        fetch_alphafold_pdb t uid =
          (.doc (t (afURL uid afPattern_v4)).body, 1)) ∧
    (∀ (t : List Char → Response) (uid : List Char),
        acceptResp (t (afURL uid afPattern_v4)) = false →
        acceptResp (t (afURL uid afPattern_v3)) = true →
        fetch_alphafold_pdb t uid =
          (.doc (t (afURL uid afPattern_v3)).body, 2)) := by
  constructor
  · intro t uid h
    simp [fetch_alphafold_pdb, AF_PATTERNS, afLoop, h]
  · intro t uid h1 h2
    simp [fetch_alphafold_pdb, AF_PATTERNS, afLoop, h1, h2]

/-- C6 witness: v4 answers 404, v3 answers a valid HEADER document; the
fetch returns the v3 document after 2 requests. -/
theorem C6_witness :
    fetch_alphafold_pdb afTransportV3Ok "P69905".toList =
      (.doc (afTransportV3Ok (afURL "P69905".toList afPattern_v3)).body, 2) :=
  C6_candidates_in_order.2 afTransportV3Ok "P69905".toList (by decide)
    (by decide)

/-- C7: for every input whose normalized form contains a character outside
`VALID_AA`, the validator fails with an invalid-token error reporting the
1-indexed position `i + 1` and the character of the first (leftmost) such
character: position `i` holds the reported character, it is invalid, and
every earlier position holds a valid character. -/
theorem C7_reports_first_invalid_token (s : List Char)
    (h : ∃ c ∈ normalize s, c ∉ VALID_AA) :
    ∃ i ch,
      clean_and_validate_sequence s = .error (.invalidToken (i + 1) ch) ∧
      (normalize s).get? i = some ch ∧ ch ∉ VALID_AA ∧
      ∀ j c, j < i → (normalize s).get? j = some c → c ∈ VALID_AA := by
  rcases filter_enumFrom_head_first_bad (normalize s) 0 h with
    ⟨i, ch, hhead, hget, hbad, hfirst⟩
  refine ⟨i, ch, ?_, hget, hbad, hfirst⟩
  have hempty : (normalize s).isEmpty = false := by
    cases hnil : normalize s with
    | nil => rw [hnil] at hget; simp at hget
    | cons a t => rfl
  have hhead2 :
      (((normalize s).enum.filter
        (fun p => decide (p.2 ∉ VALID_AA))).head?) = some (i, ch) := by
    simpa [List.enum] using hhead
  rw [clean_and_validate_eq, hempty, hhead2]
  rfl

/-- C7 witness: input "AXZ#Q" has an invalid character, and the validator
reports position 4, character '#'. -/
theorem C7_witness :
    (∃ c ∈ normalize "AXZ#Q".toList, c ∉ VALID_AA) ∧
    (∃ i ch,
      clean_and_validate_sequence "AXZ#Q".toList =
        .error (.invalidToken (i + 1) ch) ∧
      (normalize "AXZ#Q".toList).get? i = some ch ∧ ch ∉ VALID_AA ∧
      ∀ j c, j < i → (normalize "AXZ#Q".toList).get? j = some c →
        c ∈ VALID_AA) ∧
    clean_and_validate_sequence "AXZ#Q".toList =
      .error (.invalidToken 4 '#') :=
  ⟨by decide, C7_reports_first_invalid_token "AXZ#Q".toList (by decide),
    by decide⟩

/-- C8: an input of exactly 4000 allowed tokens is accepted and returned,
an input of 4001 allowed tokens fails with the too-long error, and an empty
or all-whitespace input fails with the empty error. -/
theorem C8_length_and_empty_boundaries :
    clean_and_validate_sequence (List.replicate 4000 'A') =
      .ok (List.replicate 4000 'A') ∧
    clean_and_validate_sequence (List.replicate 4001 'A') =
      .error .tooLong ∧
    clean_and_validate_sequence [] = .error .empty ∧
    clean_and_validate_sequence "  \t\n  ".toList = .error .empty := by
  have hgood : ∀ n : Nat, ∀ c ∈ List.replicate n 'A', c ∈ VALID_AA := by
    intro n c hc
    rw [List.eq_of_mem_replicate hc]
    decide
  have hne : ∀ n : Nat, 0 < n → List.replicate n 'A' ≠ [] := by
    intro n hpos hcon
    have hlen := congrArg List.length hcon
    simp at hlen
    omega
  refine ⟨?_, ?_, by decide, by decide⟩
  · rw [validate_eq_of_valid _ (normalize_replicate_A 4000)
      (hne 4000 (by norm_num)) (hgood 4000)]
    rw [List.length_replicate, if_neg (by norm_num)]
  · rw [validate_eq_of_valid _ (normalize_replicate_A 4001)
      (hne 4001 (by norm_num)) (hgood 4001)]
    rw [List.length_replicate, if_pos (by norm_num)]

/-- C4: for every parsed record set whose confidence annotation is present
and non-empty, the extractor returns the arithmetic mean over all atoms of
the annotation values with NaN replaced by 0 (`qOrZero`), rounded to 2
decimal places; annotation [10, 20, 30] gives 20.00, [10, NaN, 30] gives
13.33, and an absent annotation gives 0.00. -/
theorem C4_mean_confidence :
    (∀ (p : List Char → Except Unit AtomRecords) (text : List Char)
        (n : Nat) (vals : List PyFloat),
        p text = .ok ⟨n, some vals⟩ → vals ≠ [] →
        get_mean_plddt_from_pdb_text p text =
          some (.val (round2 ((vals.map qOrZero).sum / vals.length)))) ∧
    get_mean_plddt_from_pdb_text parseTenTwentyThirty [] =
      some (.val 20) ∧
    get_mean_plddt_from_pdb_text parseWithNan [] =
      some (.val (1333 / 100)) ∧
    get_mean_plddt_from_pdb_text parseNoAnnotation [] = some (.val 0) := by
  refine ⟨?_, by with_unfolding_all decide, by with_unfolding_all decide,
    by with_unfolding_all decide⟩
  intro p text n vals hp hne
  unfold get_mean_plddt_from_pdb_text load_pdb_safe_from_text
  rw [hp]
  simp only [Except.map, fixup_b_factor]
  have hne2 : (vals.map nanToNum).isEmpty = false := by
    cases vals with
    | nil => exact absurd rfl hne
    | cons v w => rfl
  have hnonan : (vals.map nanToNum).any isNanPF = false := by
    rw [List.any_map]
    rw [List.any_eq_false]
    intro x hx
    cases x <;> simp [Function.comp, nanToNum, isNanPF]
  unfold npMean
  rw [hne2, hnonan]
  rw [if_neg (by simp)]
  rw [List.map_map]
  have hcomp : (qOrZero ∘ nanToNum) = qOrZero := by
    funext v; cases v <;> rfl
  rw [hcomp, List.length_map]
  rfl

/-- C4 witness: applying the general statement to the parsed record set
with annotation [10, NaN, 30]. -/
theorem C4_witness :
    get_mean_plddt_from_pdb_text parseWithNan [] =
      some (.val (round2
        ((([PyFloat.val 10, PyFloat.nan, PyFloat.val 30]).map qOrZero).sum /
          ([PyFloat.val 10, PyFloat.nan, PyFloat.val 30] :
            List PyFloat).length))) :=
  C4_mean_confidence.1 parseWithNan [] 3
    [PyFloat.val 10, PyFloat.nan, PyFloat.val 30] rfl (by decide)

/-- C9: confidence extraction never raises to its caller: whenever the
parse collaborator fails on a document, `get_mean_plddt_from_pdb_text`
returns the distinguished unavailable outcome `none` rather than
propagating an error.  (In the model every exception of the `try` body is
an `.error` of the parse collaborator; the function is total, so there is
no other way for an error to escape.) -/
theorem C9_unavailable_on_parse_failure
    (p : List Char → Except Unit AtomRecords) (text : List Char)
    (h : ∃ e, p text = .error e) :
    get_mean_plddt_from_pdb_text p text = none := by
  rcases h with ⟨e, he⟩
  unfold get_mean_plddt_from_pdb_text load_pdb_safe_from_text
  rw [he]
  rfl

/-- C9 witness: a parse collaborator that always fails yields `none`. -/
theorem C9_witness :
    (∃ e, parseAlwaysFails [] = .error e) ∧
    get_mean_plddt_from_pdb_text parseAlwaysFails [] = none :=
  ⟨⟨(), rfl⟩, C9_unavailable_on_parse_failure parseAlwaysFails []
    ⟨(), rfl⟩⟩

theorem esmLoop_ok_headerOk (t : Nat → NetEvent) (maxTries : Nat) :
    ∀ (fuel k s : Nat) (b : List Char) (a s2 : Nat),
      esmLoop t maxTries fuel k s = ⟨.ok b, a, s2⟩ → headerOk b = true := by
  intro fuel
  induction fuel with
  | zero =>
      intro k s b a s2 h
      simp [esmLoop] at h
  | succ fuel ih =>
      intro k s b a s2 h
      simp only [esmLoop] at h
      split at h
      · split at h
        · exact ih _ _ _ _ _ h
        · simp at h
      · rename_i r
        split at h
        · rename_i hcond
          cases h
          simp at hcond
          exact hcond.2
        · split at h
          · exact ih _ _ _ _ _ h
          · split at h
            · split at h
              · exact ih _ _ _ _ _ h
              · simp at h
            · exact ih _ _ _ _ _ h

theorem esmLoop_all_bad200 (t : Nat → NetEvent) (maxTries : Nat)
    (hbad : ∀ j, 1 ≤ j → j ≤ maxTries → bad200 (t j) = true) :
    ∀ (fuel k s : Nat), fuel + k = maxTries + 1 → 1 ≤ k →
      esmLoop t maxTries fuel k s = ⟨.exhausted, maxTries, s⟩ := by
  intro fuel
  induction fuel with
  | zero =>
      intro k s hfk hk1
      have hk : k = maxTries + 1 := by omega
      subst hk
      simp [esmLoop]
  | succ fuel ih =>
      intro k s hfk hk1
      have hkmax : k ≤ maxTries := by omega
      have hb := hbad k hk1 hkmax
      cases hev : t k with
      | netErr => rw [hev] at hb; simp [bad200] at hb
      | resp r =>
          rw [hev] at hb
          simp [bad200] at hb
          obtain ⟨hst, hhd⟩ := hb
          have hc1 : (r.status == 200 && headerOk r.body) = false := by
            simp [hhd]
          have hc2 : isTransient r.status = false := by
            simp [isTransient, hst]
          have hc3 : raisesForStatus r.status = false := by
            simp [raisesForStatus, hst]
          simp only [esmLoop, hev, hc1, hc2, hc3, Bool.false_eq_true,
            if_false]
          exact ih (k + 1) s (by omega) (by omega)

/-- C10: a 200 response whose stripped body does not start with HEADER is
neither accepted nor slept on nor treated as fatal: with every attempt
answering such a response the loop walks through all `max_tries` attempts
with zero backoff sleeps and ends exhausted; and `esmfold_with_retries`
never returns a body failing the HEADER check. -/
theorem C10_header_mismatch_no_transition :
    (∀ (t : Nat → NetEvent) (maxTries : Nat),
        (∀ j, 1 ≤ j → j ≤ maxTries → bad200 (t j) = true) →
        esmfold_with_retries t maxTries = ⟨.exhausted, maxTries, 0⟩) ∧
    (∀ (t : Nat → NetEvent) (maxTries : Nat) (b : List Char) (a s : Nat),
        esmfold_with_retries t maxTries = ⟨.ok b, a, s⟩ →
        headerOk b = true) := by
  constructor
  · intro t maxTries hbad
    exact esmLoop_all_bad200 t maxTries hbad maxTries 1 0 (by omega)
      (by omega)
  · intro t maxTries b a s h
    exact esmLoop_ok_headerOk t maxTries maxTries 1 0 b a s h

/-- C10 witness: five attempts of 200-with-invalid-body end exhausted after
5 attempts and 0 sleeps. -/
theorem C10_witness :
    esmfold_with_retries script200Bad 5 = ⟨.exhausted, 5, 0⟩ :=
  C10_header_mismatch_no_transition.1 script200Bad 5 (fun _ _ _ => rfl)

end EsmFold
